import Mathlib

set_option autoImplicit false

/-!
Verification development for the sso-switch authenticating reverse proxy.

The Go sources are shallowly embedded: machine state (the key-value cache,
HTTP response effects) is passed explicitly, instants and durations are
modelled as integer seconds, random values (UUIDs, PKCE verifiers) and
network results (token exchange, ID-token verification, SAML response
parsing) are parameters of the embedded functions.
-/

namespace SSO

/-! ## Claim values (Go `interface{}` values stored in `Session.UserInfo`)
    and header formatting, from internal/proxy/headers.go. -/

/-- An element of a Go `[]interface{}` slice: either a string, or any other
value, which `formatHeaderValue` renders with `fmt.Sprintf`; we carry that
rendering as an opaque string. -/
inductive GoItem where
  | iString (s : String)
  | iOther (txt : String)
deriving Repr, DecidableEq

/-- A Go `interface{}` claim value as discriminated by `formatHeaderValue`:
`string`, `[]string`, `[]interface{}`, or the default case (rendered by
`fmt.Sprintf("%v", v)`, carried as an opaque string). -/
inductive GoValue where
  | vString (s : String)
  | vStringList (l : List String)
  | vAnyList (l : List GoItem)
  | vOther (txt : String)
deriving Repr, DecidableEq

/-- The `fmt.Sprintf("%v", item)` rendering of a `[]interface{}` element. -/
def formatItem : GoItem → String
  | .iString s => s
  | .iOther txt => txt

/-- `formatHeaderValue` from internal/proxy/headers.go. -/
def formatHeaderValue : GoValue → String
  | .vString s => s
  | .vStringList l => String.intercalate "," l
  | .vAnyList l => String.intercalate "," (l.map formatItem)
  | .vOther txt => txt

/-- Association-list lookup with string keys (Go map read `m[k]`,
first binding wins; our write operation keeps keys unique). -/
def alistGet {α : Type} : List (String × α) → String → Option α
  | [], _ => none
  | (k, v) :: rest, key => if key = k then some v else alistGet rest key

/-- Association-list write (Go map assignment `m[k] = v`): replaces any
existing binding for the key. -/
def alistSet {α : Type} (l : List (String × α)) (key : String) (v : α) :
    List (String × α) :=
  (key, v) :: l.filter (fun kv => decide (kv.1 ≠ key))

/-- An HTTP header collection, as a partial map from header name to value.
Header names are assumed to be used in a single (canonical) spelling. -/
def Headers : Type := String → Option String

/-- `req.Header.Set(k, v)`. -/
def headerSet (h : Headers) (k v : String) : Headers :=
  fun k2 => if k2 = k then some v else h k2

/-! ## The Session record, from internal/auth (types file). -/

/-- `auth.Session`. Instants are integer seconds; the Go zero `time.Time`
is modelled as `0`. -/
structure Session where
  id : String
  providerID : String
  providerType : String
  userInfo : List (String × GoValue)
  createdAt : Int
  expiresAt : Int
  accessToken : String
  refreshToken : String
  idToken : String
  tokenExpiry : Int
  assertion : String
  csrfToken : String
deriving Repr, DecidableEq

/-- The mapped-claims loop of `InjectHeaders`: for each
`(claim, header)` pair, look the claim up in `UserInfo`; skip absent
claims and empty formatted values, otherwise `Set` the header. -/
def injectMapped (mappings : List (String × String))
    (ui : List (String × GoValue)) (h : Headers) : Headers :=
  mappings.foldl (fun acc cm =>
    match alistGet ui cm.1 with
    | none => acc
    | some v =>
      if formatHeaderValue v = "" then acc
      else headerSet acc cm.2 (formatHeaderValue v)) h

/-- `InjectHeaders` from internal/proxy/headers.go: the mapped-claims loop
followed by the three fixed informational headers. -/
def injectHeaders (mappings : List (String × String)) (s : Session)
    (h : Headers) : Headers :=
  headerSet
    (headerSet
      (headerSet (injectMapped mappings s.userInfo h)
        "X-Auth-Provider" s.providerID)
      "X-Auth-Provider-Type" s.providerType)
    "X-Auth-Session-ID" s.id

/-- The values the mapped-claims loop writes to a given header name, in
loop order: one entry per mapping pair targeting that name whose claim is
present and formats non-empty. -/
def mappedWrites (mappings : List (String × String))
    (ui : List (String × GoValue)) (nm : String) : List String :=
  mappings.filterMap (fun cm =>
    if cm.2 = nm then
      match alistGet ui cm.1 with
      | none => none
      | some v =>
        if formatHeaderValue v = "" then none else some (formatHeaderValue v)
    else none)

/-! ## Configuration (config package) and the session cookie
    (pkg/security cookie file). -/

/-- `config.ServerConfig`. Durations are integer seconds. -/
structure ServerConfig where
  host : String
  port : Nat
  baseURL : String
  cookieName : String
  cookieDomain : String
  cookieSecure : Bool
  cookieHTTPOnly : Bool
  cookieSameSite : String
  sessionTTL : Int
deriving Repr, DecidableEq

/-- `config.BackendConfig`. -/
structure BackendConfig where
  url : String
  timeout : Int
  preserveHost : Bool
deriving Repr, DecidableEq

/-- `config.RedisConfig`. -/
structure RedisConfig where
  address : String
  password : String
  db : Int
  poolSize : Int
  maxRetries : Int
deriving Repr, DecidableEq

/-- `config.CacheConfig` (`typ` embeds the Go field `Type`). -/
structure CacheConfig where
  typ : String
  redis : Option RedisConfig
deriving Repr, DecidableEq

/-- `config.LoggingConfig`. -/
structure LoggingConfig where
  level : String
  format : String
  output : String
deriving Repr, DecidableEq

/-- `config.UIConfig` (`enable` is a `*bool`). -/
structure UIConfig where
  enable : Option Bool
  title : String
  gradientStart : String
  gradientEnd : String
  logoPath : String
deriving Repr, DecidableEq

/-- `config.Config`. -/
structure Config where
  server : ServerConfig
  backend : BackendConfig
  cache : CacheConfig
  logging : LoggingConfig
  ui : UIConfig
deriving Repr, DecidableEq

/-- The `c.Server` mutations of `Config.setDefaults`, in source order. -/
def serverDefaults (s0 : ServerConfig) : ServerConfig :=
  let s := s0
  let s := if s.host = "" then { s with host := "0.0.0.0" } else s
  let s := if s.port = 0 then { s with port := 8080 } else s
  let s := if s.cookieName = "" then { s with cookieName := "sso-switch-session" } else s
  let s := if s.cookieHTTPOnly = false then { s with cookieHTTPOnly := true } else s
  let s := if s.cookieSameSite = "" then { s with cookieSameSite := "lax" } else s
  let s := if s.sessionTTL = 0 then { s with sessionTTL := 86400 } else s
  s

/-- The `c.Backend` mutations of `Config.setDefaults`. -/
def backendDefaults (b0 : BackendConfig) : BackendConfig :=
  if b0.timeout = 0 then { b0 with timeout := 30 } else b0

/-- The `c.Cache` mutations of `Config.setDefaults`. -/
def cacheDefaults (c0 : CacheConfig) : CacheConfig :=
  let c := if c0.typ = "" then { c0 with typ := "memory" } else c0
  if c.typ = "redis" then
    match c.redis with
    | some r =>
      let r := if r.poolSize = 0 then { r with poolSize := 10 } else r
      let r := if r.maxRetries = 0 then { r with maxRetries := 3 } else r
      { c with redis := some r }
    | none => c
  else c

/-- The `c.Logging` mutations of `Config.setDefaults`. -/
def loggingDefaults (l0 : LoggingConfig) : LoggingConfig :=
  let l := if l0.level = "" then { l0 with level := "info" } else l0
  let l := if l.format = "" then { l with format := "json" } else l
  if l.output = "" then { l with output := "stdout" } else l

/-- The `c.UI` mutations of `Config.setDefaults`. -/
def uiDefaults (u0 : UIConfig) : UIConfig :=
  let u := match u0.enable with
    | none => { u0 with enable := some true }
    | some _ => u0
  let u := if u.title = "" then { u with title := "Sign In" } else u
  let u := if u.gradientStart = "" then { u with gradientStart := "#667eea" } else u
  if u.gradientEnd = "" then { u with gradientEnd := "#764ba2" } else u

/-- `Config.setDefaults` from the config package: section-wise defaulting
in source order. -/
def setDefaults (c : Config) : Config :=
  { server := serverDefaults c.server,
    backend := backendDefaults c.backend,
    cache := cacheDefaults c.cache,
    logging := loggingDefaults c.logging,
    ui := uiDefaults c.ui }

/-- An HTTP cookie as emitted by the proxy (the fields `CreateSessionCookie`
sets; `sameSite` carries the resolved mode name). -/
structure Cookie where
  name : String
  value : String
  path : String
  domain : String
  maxAge : Int
  secure : Bool
  httpOnly : Bool
  sameSite : String
deriving Repr, DecidableEq

/-- ASCII lower-casing of one character (the relevant fragment of Go
`strings.ToLower` for the configured SameSite names). -/
def lowerChar (c : Char) : Char :=
  if 'A' ≤ c ∧ c ≤ 'Z' then Char.ofNat (c.toNat + 32) else c

/-- ASCII lower-casing of a string. -/
def lowerString (s : String) : String := ⟨s.data.map lowerChar⟩

/-- The `SameSite` switch of `CreateSessionCookie`
(`strings.ToLower(cfg.CookieSameSite)` against `strict`/`none`,
defaulting to lax). -/
def sameSiteMode (s : String) : String :=
  if lowerString s = "strict" then "strict"
  else if lowerString s = "none" then "none"
  else "lax"

/-- `security.CreateSessionCookie`: `maxAge` is the duration argument in
whole seconds (Go: `int(maxAge.Seconds())`). -/
def createSessionCookie (cfg : ServerConfig) (sessionID : String)
    (maxAge : Int) : Cookie :=
  { name := cfg.cookieName, value := sessionID, path := "/",
    domain := cfg.cookieDomain, maxAge := maxAge, secure := cfg.cookieSecure,
    httpOnly := cfg.cookieHTTPOnly, sameSite := sameSiteMode cfg.cookieSameSite }

/-! ## The key-value cache (cache package) with its namespaced keys.

The cache contract stores opaque bytes; all writers serialize exactly one
record type per key namespace and all readers deserialize the same type,
so the byte level is modelled by a typed store (serialization assumed
round-tripping). Namespaced string keys (`"session:"+id`, …) are modelled
by a constructor per namespace, which renders prefix-disjointness of the
namespaces as constructor disjointness. -/

/-- `auth.OIDCState` (the transient OIDC flow state blob). -/
structure OIDCState where
  state : String
  providerID : String
  codeVerifier : String
  redirectURL : String
  createdAt : Int
deriving Repr, DecidableEq

/-- `auth.SAMLRequest` (the transient SAML flow state blob). -/
structure SAMLRequest where
  id : String
  providerID : String
  relayState : String
  createdAt : Int
deriving Repr, DecidableEq

/-- A namespaced cache key: `session:<id>`, `oidc:state:<state>`,
`saml:request:<id>`, `csrf:<token>`. -/
inductive Key where
  | sessionK (id : String)
  | oidcStateK (st : String)
  | samlRequestK (id : String)
  | csrfK (tok : String)
deriving Repr, DecidableEq

/-- A cached value (the deserialized form of the stored bytes; `csrfV` is
the literal `"1"` marker). -/
inductive CacheVal where
  | oidcStateV (st : OIDCState)
  | samlRequestV (r : SAMLRequest)
  | sessionV (s : Session)
  | csrfV
deriving Repr, DecidableEq

/-- The cache contents (entry expiry is not modelled; the claims below do
not overlap TTL passage). -/
abbrev Store := List (Key × CacheVal)

/-- `cache.Get` (`none` is `ErrNotFound`). -/
def storeGet : Store → Key → Option CacheVal
  | [], _ => none
  | (k2, v) :: rest, k => if k = k2 then some v else storeGet rest k

/-- `cache.Delete` (idempotent). -/
def storeDelete : Store → Key → Store
  | [], _ => []
  | (k2, v) :: rest, k =>
    if k = k2 then storeDelete rest k else (k2, v) :: storeDelete rest k

/-- `cache.Set`: full replacement of any existing value. -/
def storeSet (st : Store) (k : Key) (v : CacheVal) : Store :=
  (k, v) :: storeDelete st k

/-! ## HTTP-level effects: the trace of externally visible operations a
handler performs, in program order. -/

/-- One externally visible operation of a handler. -/
inductive Ev where
  | evGet (k : Key)
  | evSet (k : Key) (ttl : Int)
  | evDelete (k : Key)
  | evTokenExchange
  | evRefreshCall
  | evSetCookie (c : Cookie)
  | evRedirect (url : String)
  | evHttpError (code : Nat)
deriving Repr, DecidableEq

/-- The outcome of one HTTP handler invocation: response status, redirect
target, cookies written, resulting cache contents, operation trace. -/
structure HResult where
  status : Nat
  location : Option String
  cookies : List Cookie
  store : Store
  trace : List Ev
deriving Repr, DecidableEq

/-! ## The OIDC provider (internal/auth/oidc/provider.go). -/

/-- The configuration-derived fields of the OIDC `Provider` the embedded
operations read. -/
structure OIDCProviderM where
  id : String
  name : String
  clientID : String
  authURL : String
  hd : String
deriving Repr, DecidableEq

/-- An IdP token-endpoint response (`oauth2.Token` plus its `id_token`
extra; `none` models an absent extra). -/
structure TokenResp where
  accessToken : String
  refreshToken : String
  expiry : Int
  idToken : Option String
deriving Repr, DecidableEq

/-- The query parameters of an OIDC callback request (Go
`Query().Get` yields `""` for an absent parameter). -/
structure CallbackReq where
  code : String
  state : String
deriving Repr, DecidableEq

/-- `oidc.Provider.HandleCallback`. Network and crypto are oracles:
`exchange code verifier` is the token-endpoint exchange, `verify raw` is
ID-token verification returning the decoded claims. `provUUID`/`csrfUUID`
are the session and CSRF UUIDs the provider draws. Returns the result,
the cache contents after the call, and the operation trace. -/
def oidcHandleCallback (p : OIDCProviderM)
    (exchange : String → String → Option TokenResp)
    (verify : String → Option (List (String × GoValue)))
    (now : Int) (provUUID csrfUUID : String)
    (req : CallbackReq) (store : Store) :
    Except String Session × Store × List Ev :=
  if req.code = "" then (.error "missing code parameter", store, [])
  else if req.state = "" then (.error "missing state parameter", store, [])
  else
    match storeGet store (.oidcStateK req.state) with
    | none =>
      (.error "invalid or expired state", store, [.evGet (.oidcStateK req.state)])
    | some (.oidcStateV oidcState) =>
      -- source: `if oidcState.ProviderID != p.id` returns the mismatch
      -- error; the branches are transposed to a positive guard
      if oidcState.providerID = p.id then
        match exchange req.code oidcState.codeVerifier with
        | none =>
          (.error "failed to exchange code",
           storeDelete store (.oidcStateK req.state),
           [.evGet (.oidcStateK req.state), .evDelete (.oidcStateK req.state),
            .evTokenExchange])
        | some tok =>
          match tok.idToken with
          | none =>
            (.error "no id_token in token response",
             storeDelete store (.oidcStateK req.state),
             [.evGet (.oidcStateK req.state), .evDelete (.oidcStateK req.state),
              .evTokenExchange])
          | some rawIDToken =>
            match verify rawIDToken with
            | none =>
              (.error "failed to verify ID token",
               storeDelete store (.oidcStateK req.state),
               [.evGet (.oidcStateK req.state), .evDelete (.oidcStateK req.state),
                .evTokenExchange])
            | some claims =>
              (.ok { id := provUUID, providerID := p.id, providerType := "oidc",
                     userInfo := claims, createdAt := now,
                     expiresAt := tok.expiry, accessToken := tok.accessToken,
                     refreshToken := tok.refreshToken, idToken := rawIDToken,
                     tokenExpiry := tok.expiry, assertion := "",
                     csrfToken := csrfUUID },
               storeDelete store (.oidcStateK req.state),
               [.evGet (.oidcStateK req.state), .evDelete (.oidcStateK req.state),
                .evTokenExchange])
      else
        (.error "provider mismatch", store, [.evGet (.oidcStateK req.state)])
    | some _ =>
      (.error "failed to unmarshal state", store, [.evGet (.oidcStateK req.state)])

/-- `CallbackHandler.HandleOIDCCallback` (handlers package): the route
handler around the provider callback. `sessUUID` is the fresh session id
the handler assigns. -/
def handleOIDCCallback (providers : List (String × OIDCProviderM))
    (exchange : String → String → Option TokenResp)
    (verify : String → Option (List (String × GoValue)))
    (cfgS : ServerConfig) (now : Int)
    (provUUID csrfUUID sessUUID : String)
    (providerID : String) (req : CallbackReq) (store : Store) : HResult :=
  match alistGet providers providerID with
  | none =>
    { status := 400, location := none, cookies := [], store := store,
      trace := [.evHttpError 400] }
  | some p =>
    match oidcHandleCallback p exchange verify now provUUID csrfUUID req store with
    | (.error _, store1, t1) =>
      { status := 401, location := none, cookies := [], store := store1,
        trace := t1 ++ [.evHttpError 401] }
    | (.ok session0, store1, t1) =>
      let session := { session0 with id := sessUUID }
      let ttl := session.expiresAt - now
      let cookie := createSessionCookie cfgS sessUUID ttl
      { status := 302, location := some "/", cookies := [cookie],
        store := storeSet store1 (.sessionK sessUUID) (.sessionV session),
        trace := t1 ++ [.evSet (.sessionK sessUUID) ttl, .evSetCookie cookie,
                        .evRedirect "/"] }

/-- `oidc.Provider.RefreshSession`. `tokenResult` is the outcome of the
refresh grant at the IdP (`none` = failure); `verify` is ID-token
verification. The Go code mutates the session in place; the embedding
returns the final value. -/
def oidcRefreshSession (verify : String → Option (List (String × GoValue)))
    (tokenResult : Option TokenResp) (s : Session) : Except String Session :=
  if s.refreshToken = "" then .error "no refresh token available"
  else
    match tokenResult with
    | none => .error "failed to refresh token"
    | some newToken =>
      let step1 : Except String Session :=
        match newToken.idToken with
        | some rawIDToken =>
          match verify rawIDToken with
          | none => .error "failed to verify refreshed ID token"
          | some claims => .ok { s with userInfo := claims, idToken := rawIDToken }
        | none => .ok s
      match step1 with
      | .error e => .error e
      | .ok s1 =>
        .ok { s1 with
              accessToken := newToken.accessToken,
              refreshToken :=
                if newToken.refreshToken ≠ "" then newToken.refreshToken
                else s1.refreshToken,
              tokenExpiry := newToken.expiry,
              expiresAt := newToken.expiry }

/-! ## The authentication middleware (internal/middleware/auth.go). -/

/-- What `RequireAuth` needs of a registered provider: its identity fields
and its `RefreshSession` behaviour (a function, since the OIDC refresh
involves the IdP; the SAML provider's refresh always errors). -/
structure ProviderRT where
  id : String
  kind : String
  refreshFn : Session → Except String Session

/-- `ValidateSession` (identical logic in the OIDC and SAML providers):
provider id must match and `time.Now().After(ExpiresAt)` must be false. -/
def validateSession (pid : String) (now : Int) (s : Session) :
    Except String Unit :=
  -- source: `if session.ProviderID != p.id` errors first; positive guard
  if s.providerID = pid then
    if s.expiresAt < now then .error "session expired" else .ok ()
  else .error "provider mismatch"

/-- The outcome of one `RequireAuth` invocation: whether it redirected to
`/auth/select`, the session attached to the request context when it
proceeded downstream, the cache afterwards and the operation trace. -/
structure AuthResult where
  redirected : Bool
  proceeded : Option Session
  store : Store
  trace : List Ev

/-- `AuthMiddleware.RequireAuth` per-request logic. `cookieVal` is the
session cookie value (`none` when absent); 300 is the 5-minute refresh
window in seconds. -/
def requireAuth (providers : List (String × ProviderRT)) (now : Int)
    (cookieVal : Option String) (store : Store) : AuthResult :=
  match cookieVal with
  | none => { redirected := true, proceeded := none, store := store, trace := [] }
  | some cv =>
    match storeGet store (.sessionK cv) with
    | none =>
      { redirected := true, proceeded := none, store := store,
        trace := [.evGet (.sessionK cv)] }
    | some (.sessionV session) =>
      match alistGet providers session.providerID with
      | none =>
        { redirected := true, proceeded := none, store := store,
          trace := [.evGet (.sessionK cv)] }
      | some provider =>
        match validateSession provider.id now session with
        | .ok _ =>
          { redirected := false, proceeded := some session, store := store,
            trace := [.evGet (.sessionK cv)] }
        | .error _ =>
          if session.providerType = "oidc" ∧ session.tokenExpiry - now < 300 then
            match provider.refreshFn session with
            | .error _ =>
              { redirected := true, proceeded := none, store := store,
                trace := [.evGet (.sessionK cv), .evRefreshCall] }
            | .ok newSession =>
              { redirected := false, proceeded := some newSession,
                store := storeSet store (.sessionK cv) (.sessionV newSession),
                trace := [.evGet (.sessionK cv), .evRefreshCall,
                          .evSet (.sessionK cv) (newSession.expiresAt - now)] }
          else
            { redirected := true, proceeded := none, store := store,
              trace := [.evGet (.sessionK cv)] }
    | some _ =>
      -- stored bytes do not unmarshal to a session
      { redirected := true, proceeded := none, store := store,
        trace := [.evGet (.sessionK cv)] }

/-! ## The SAML provider (internal/auth/saml package). -/

/-- The configuration-derived fields of the SAML `Provider` the embedded
callback reads. -/
structure SAMLProviderM where
  id : String
  name : String
deriving Repr, DecidableEq

/-- One `<Attribute>` with its value list. -/
structure SAMLAttr where
  name : String
  values : List String
deriving Repr, DecidableEq

/-- A validated SAML assertion as `sp.ParseResponse` returns it: the
subject `NameID` (value, format), the attribute statements, the
`Conditions.NotOnOrAfter` instant (`none` models both a nil `Conditions`
and a zero time), and its XML serialization. -/
structure Assertion where
  nameID : Option (String × String)
  attributeStatements : List (List SAMLAttr)
  notOnOrAfter : Option Int
  xmlData : String
deriving Repr, DecidableEq

/-- The claims-map construction of the SAML `HandleCallback`: `name_id` /
`name_id_format` from the subject, then one entry per attribute
(single value → string, several → list of strings, zero → skipped). -/
def extractSAMLClaims (a : Assertion) : List (String × GoValue) :=
  let c0 : List (String × GoValue) :=
    match a.nameID with
    | some nv => [("name_id", .vString nv.1), ("name_id_format", .vString nv.2)]
    | none => []
  a.attributeStatements.foldl (fun acc stmt =>
    stmt.foldl (fun acc2 attr =>
      match attr.values with
      | [] => acc2
      | [v] => alistSet acc2 attr.name (.vString v)
      | vs => alistSet acc2 attr.name (.vStringList vs)) acc) c0

/-- `saml.Provider.HandleCallback`. `parse` is the outcome of
`sp.ParseResponse` (validation of signature, destination, audience, time
window); `provUUID`/`csrfUUID` are the UUIDs the provider draws. -/
def samlHandleCallback (p : SAMLProviderM) (parse : Option Assertion)
    (now : Int) (provUUID csrfUUID : String) (samlResponse : String) :
    Except String Session :=
  if samlResponse = "" then .error "missing SAMLResponse"
  else
    match parse with
    | none => .error "failed to parse SAML response"
    | some a =>
      let expiresAt :=
        match a.notOnOrAfter with
        | some t => t
        | none => now + 86400
      .ok { id := provUUID, providerID := p.id, providerType := "saml",
            userInfo := extractSAMLClaims a, createdAt := now,
            expiresAt := expiresAt, accessToken := "", refreshToken := "",
            idToken := "", tokenExpiry := 0, assertion := a.xmlData,
            csrfToken := csrfUUID }

/-- `CallbackHandler.HandleSAMLCallback` (handlers package): the ACS route
handler around the provider callback. `relayState` is the posted
`RelayState` form value (`""` when absent). -/
def handleSAMLCallback (providers : List (String × SAMLProviderM))
    (parse : Option Assertion) (cfgS : ServerConfig) (now : Int)
    (provUUID csrfUUID sessUUID : String)
    (providerID : String) (samlResponse relayState : String)
    (store : Store) : HResult :=
  match alistGet providers providerID with
  | none =>
    { status := 400, location := none, cookies := [], store := store,
      trace := [.evHttpError 400] }
  | some p =>
    match samlHandleCallback p parse now provUUID csrfUUID samlResponse with
    | .error _ =>
      { status := 401, location := none, cookies := [], store := store,
        trace := [.evHttpError 401] }
    | .ok session0 =>
      let session := { session0 with id := sessUUID }
      let ttl := session.expiresAt - now
      let cookie := createSessionCookie cfgS sessUUID ttl
      let target := if relayState = "" then "/" else relayState
      { status := 302, location := some target, cookies := [cookie],
        store := storeSet store (.sessionK sessUUID) (.sessionV session),
        trace := [.evSet (.sessionK sessUUID) ttl, .evSetCookie cookie,
                  .evRedirect target] }

/-! ## The CSRF middleware (internal/middleware/csrf.go), the selection
handler (internal/handlers/select.go) and the route wiring
(server setupRoutes). -/

/-- A parsed HTTP request as the selection and CSRF code consume it
(`FormValue` and `Header.Get` yield `""` for absent entries). -/
structure HttpReq where
  method : String
  form : List (String × String)
  headers : List (String × String)
deriving Repr, DecidableEq

/-- `r.FormValue(k)`. -/
def formValue (r : HttpReq) (k : String) : String := (alistGet r.form k).getD ""

/-- `r.Header.Get(k)`. -/
def headerGet (r : HttpReq) (k : String) : String :=
  (alistGet r.headers k).getD ""

/-- The type of an HTTP handler in this embedding. -/
def HandlerFn : Type := HttpReq → Store → HResult

/-- `CSRFMiddleware.ValidateCSRF`: on `POST`/`PUT`/`DELETE`, read the
token from the form or the `X-CSRF-Token` header; missing or unknown →
403; otherwise delete it (single use) and run the wrapped handler. -/
def validateCSRF (next : HandlerFn) : HandlerFn := fun req store =>
  if req.method = "POST" ∨ req.method = "PUT" ∨ req.method = "DELETE" then
    let t0 := formValue req "csrf_token"
    let token := if t0 = "" then headerGet req "X-CSRF-Token" else t0
    if token = "" then
      { status := 403, location := none, cookies := [], store := store,
        trace := [.evHttpError 403] }
    else
      match storeGet store (.csrfK token) with
      | none =>
        { status := 403, location := none, cookies := [], store := store,
          trace := [.evHttpError 403] }
      | some _ =>
        let r := next req (storeDelete store (.csrfK token))
        { r with trace := .evDelete (.csrfK token) :: r.trace }
  else next req store

/-- `auth.AuthRedirect` (typed cache payload as in the store model). -/
structure AuthRedirect where
  url : String
  method : String
  cacheKey : Key
  cacheVal : CacheVal
  cacheTTL : Int
deriving Repr, DecidableEq

/-- A registered provider as the selection handler sees it. -/
inductive ProvM where
  | oidcProv (p : OIDCProviderM)
  | samlProv (p : SAMLProviderM)
deriving Repr, DecidableEq

/-- `Provider.ID()`. -/
def ProvM.pid : ProvM → String
  | .oidcProv p => p.id
  | .samlProv p => p.id

/-- `Provider.Type()`. -/
def ProvM.kind : ProvM → String
  | .oidcProv _ => "oidc"
  | .samlProv _ => "saml"

/-- The OIDC authorization URL (`AuthCodeURL` plus the optional `hd`
parameter). `codeChallenge` is the S256 challenge of the verifier. -/
def oidcAuthCodeURL (p : OIDCProviderM) (state codeChallenge redirectURL : String) :
    String :=
  p.authURL ++ "?response_type=code&client_id=" ++ p.clientID
    ++ "&redirect_uri=" ++ redirectURL ++ "&state=" ++ state
    ++ "&code_challenge=" ++ codeChallenge ++ "&code_challenge_method=S256"
    ++ (if p.hd = "" then "" else "&hd=" ++ p.hd)

/-- `oidc.Provider.InitiateAuth`: random state and PKCE verifier are the
`stateUUID`/`codeVerifier` parameters; returns the redirect and the
`oidc:state:<state>` cache triple with a 5-minute TTL. -/
def oidcInitiateAuth (p : OIDCProviderM) (redirectURL : String)
    (stateUUID codeVerifier codeChallenge : String) (now : Int) :
    AuthRedirect :=
  { url := oidcAuthCodeURL p stateUUID codeChallenge redirectURL,
    method := "GET",
    cacheKey := .oidcStateK stateUUID,
    cacheVal := .oidcStateV
      { state := stateUUID, providerID := p.id, codeVerifier := codeVerifier,
        redirectURL := redirectURL, createdAt := now },
    cacheTTL := 300 }

/-- `saml.Provider.InitiateAuth`: `requestUUID` is the generated request
id, `ssoURL` the signed redirect URL the SAML library builds; returns the
`saml:request:<id>` cache triple with a 5-minute TTL. -/
def samlInitiateAuth (p : SAMLProviderM) (redirectURL : String)
    (requestUUID ssoURL : String) (now : Int) : AuthRedirect :=
  { url := ssoURL, method := "GET",
    cacheKey := .samlRequestK requestUUID,
    cacheVal := .samlRequestV
      { id := requestUUID, providerID := p.id, relayState := redirectURL,
        createdAt := now },
    cacheTTL := 300 }

/-- `Provider.InitiateAuth` dispatch; `extra` is the code challenge for
OIDC and the library-built SSO URL for SAML. -/
def ProvM.initiateAuth (prov : ProvM) (redirectURL : String)
    (stateUUID codeVerifier extra : String) (now : Int) : AuthRedirect :=
  match prov with
  | .oidcProv p => oidcInitiateAuth p redirectURL stateUUID codeVerifier extra now
  | .samlProv p => samlInitiateAuth p redirectURL stateUUID extra now

/-- `SelectHandler.initiateAuthForProvider`: build the callback URL,
call the provider, persist the returned cache triple, redirect. -/
def selectInitiateAuthForProvider (baseURL : String) (prov : ProvM)
    (stateUUID codeVerifier extra : String) (now : Int) (store : Store) :
    HResult :=
  let redirectURL :=
    if prov.kind = "oidc" then baseURL ++ "/auth/oidc/" ++ prov.pid ++ "/callback"
    else baseURL ++ "/auth/saml/" ++ prov.pid ++ "/acs"
  let ar := prov.initiateAuth redirectURL stateUUID codeVerifier extra now
  { status := 302, location := some ar.url, cookies := [],
    store := storeSet store ar.cacheKey ar.cacheVal,
    trace := [.evSet ar.cacheKey ar.cacheTTL, .evRedirect ar.url] }

/-- `SelectHandler.handlePost`: read `provider` from the form, look it up,
initiate its flow. No CSRF check appears in this function. -/
def selectHandlePost (baseURL : String) (providers : List (String × ProvM))
    (stateUUID codeVerifier extra : String) (now : Int) : HandlerFn :=
  fun req store =>
    let providerID := formValue req "provider"
    if providerID = "" then
      { status := 400, location := none, cookies := [], store := store,
        trace := [.evHttpError 400] }
    else
      match alistGet providers providerID with
      | none =>
        { status := 400, location := none, cookies := [], store := store,
          trace := [.evHttpError 400] }
      | some prov =>
        selectInitiateAuthForProvider baseURL prov stateUUID codeVerifier
          extra now store

/-- `SelectHandler.handleGet`: single-provider short-circuit when the UI
is disabled, otherwise generate a CSRF token (`csrf:<tok> = 1`, 10-minute
TTL) and render the selection page. -/
def selectHandleGet (baseURL : String) (providers : List (String × ProvM))
    (uiEnable : Option Bool) (csrfUUID stateUUID codeVerifier extra : String)
    (now : Int) : HandlerFn := fun _ store =>
  match providers, uiEnable with
  | [(_, prov)], some false =>
    selectInitiateAuthForProvider baseURL prov stateUUID codeVerifier extra
      now store
  | _, _ =>
    { status := 200, location := none, cookies := [],
      store := storeSet store (.csrfK csrfUUID) .csrfV,
      trace := [.evSet (.csrfK csrfUUID) 600] }

/-- `SelectHandler.ServeHTTP`: method dispatch. -/
def selectServeHTTP (baseURL : String) (providers : List (String × ProvM))
    (uiEnable : Option Bool) (csrfUUID stateUUID codeVerifier extra : String)
    (now : Int) : HandlerFn := fun req store =>
  if req.method = "GET" then
    selectHandleGet baseURL providers uiEnable csrfUUID stateUUID codeVerifier
      extra now req store
  else if req.method = "POST" then
    selectHandlePost baseURL providers stateUUID codeVerifier extra now req store
  else
    { status := 405, location := none, cookies := [], store := store,
      trace := [.evHttpError 405] }

/-- The `/auth/select` route as `setupRoutes` wires it:
`mux.HandleFunc("/auth/select", selectHandler.ServeHTTP)` registers the
handler directly, NOT wrapped in `ValidateCSRF` (contrast
`mux.Handle("/auth/logout", csrfMiddleware.ValidateCSRF(logoutHandler))`). -/
def selectRoute (baseURL : String) (providers : List (String × ProvM))
    (uiEnable : Option Bool) (csrfUUID stateUUID codeVerifier extra : String)
    (now : Int) : HandlerFn :=
  selectServeHTTP baseURL providers uiEnable csrfUUID stateUUID codeVerifier
    extra now

/-! ## Concrete fixtures used by witnesses and counterexamples. -/

/-- A concrete OIDC provider (`azure`). -/
def azureP : OIDCProviderM :=
  { id := "azure", name := "Azure", clientID := "cid",
    authURL := "https://idp/authorize", hd := "" }

/-- A concrete SAML provider (`okta`). -/
def oktaP : SAMLProviderM := { id := "okta", name := "Okta" }

/-- A concrete server configuration with the 24h `session_ttl` default. -/
def witCfg : ServerConfig :=
  { host := "0.0.0.0", port := 8080, baseURL := "https://sso",
    cookieName := "sso-switch-session", cookieDomain := "",
    cookieSecure := false, cookieHTTPOnly := true, cookieSameSite := "lax",
    sessionTTL := 86400 }

/-- A token-exchange oracle accepting code `C1` with verifier `ver`,
returning a token that expires at 3600. -/
def witExchange : String → String → Option TokenResp := fun code ver =>
  if code = "C1" ∧ ver = "ver" then
    some { accessToken := "at", refreshToken := "rt", expiry := 3600,
           idToken := some "idtok" }
  else none

/-- An ID-token verification oracle accepting `idtok`. -/
def witVerify : String → Option (List (String × GoValue)) := fun raw =>
  if raw = "idtok" then some [("email", .vString "alice@x.com")] else none

/-- The transient flow state stored for state `S1`. -/
def witState : OIDCState :=
  { state := "S1", providerID := "azure", codeVerifier := "ver",
    redirectURL := "https://sso/auth/oidc/azure/callback", createdAt := 0 }

/-- A cache holding exactly the `oidc:state:S1` entry. -/
def witStore : Store := [(.oidcStateK "S1", .oidcStateV witState)]

/-- The callback request replaying code `C1` and state `S1`. -/
def witReq : CallbackReq := { code := "C1", state := "S1" }

/-- The result of a successful concrete OIDC callback at `now` = 0. -/
def witRun : HResult :=
  handleOIDCCallback [("azure", azureP)] witExchange witVerify witCfg 0
    "u-prov" "u-csrf" "u-sess" "azure" witReq witStore

/-- The session the concrete OIDC callback produces (provider level). -/
def witSession : Session :=
  { id := "u-prov", providerID := "azure", providerType := "oidc",
    userInfo := [("email", .vString "alice@x.com")], createdAt := 0,
    expiresAt := 3600, accessToken := "at", refreshToken := "rt",
    idToken := "idtok", tokenExpiry := 3600, assertion := "",
    csrfToken := "u-csrf" }

/-- A refresh-grant response carrying no new refresh token. -/
def witTok2 : TokenResp :=
  { accessToken := "at2", refreshToken := "", expiry := 7200, idToken := none }

/-- `witSession` after a successful refresh with `witTok2`. -/
def witRefreshed : Session :=
  { witSession with
    accessToken := "at2", tokenExpiry := 7200, expiresAt := 7200 }

/-- A registered middleware provider whose refresh succeeds, pushing the
token expiry an hour past its previous value. -/
def witProvRT : ProviderRT :=
  { id := "azure", kind := "oidc",
    refreshFn := fun s =>
      .ok { s with
            accessToken := "at2", tokenExpiry := s.tokenExpiry + 3600,
            expiresAt := s.tokenExpiry + 3600 } }

/-- A stored OIDC session that is hard-expired at `now` = 500:
`expires_at` = `token_expiry` = 400. -/
def witExpired : Session :=
  { id := "u-sess", providerID := "azure", providerType := "oidc",
    userInfo := [("email", .vString "alice@x.com")], createdAt := 0,
    expiresAt := 400, accessToken := "at", refreshToken := "rt",
    idToken := "idtok", tokenExpiry := 400, assertion := "",
    csrfToken := "u-csrf" }

/-- A concrete validated SAML assertion with `NotOnOrAfter` = 3600. -/
def witAssert : Assertion :=
  { nameID := some ("bob@x.com", "email"),
    attributeStatements :=
      [[{ name := "urn:oid:0.9.2342.19200300.100.1.3",
          values := ["bob@x.com"] }]],
    notOnOrAfter := some 3600,
    xmlData := "<Assertion/>" }

/-- The result of a successful concrete SAML callback at `now` = 0. -/
def witSAMLRun : HResult :=
  handleSAMLCallback [("okta", oktaP)] (some witAssert) witCfg 0
    "u-prov" "u-csrf" "u-sess2" "okta" "resp" "" []

/-! ## Helper lemmas. -/

theorem injectMapped_apply (mappings : List (String × String))
    (ui : List (String × GoValue)) (h : Headers) (nm : String) :
    injectMapped mappings ui h nm
      = (mappedWrites mappings ui nm).foldl (fun _ v => some v) (h nm) := by
  induction mappings generalizing h with
  | nil => rfl
  | cons cm rest ih =>
    simp only [injectMapped, List.foldl] at ih ⊢
    simp only [mappedWrites, List.filterMap_cons]
    cases hlk : alistGet ui cm.1 with
    | none =>
      by_cases hnm : cm.2 = nm <;> simp [hlk, hnm, ih, mappedWrites]
    | some v =>
      by_cases hfv : formatHeaderValue v = ""
      · by_cases hnm : cm.2 = nm <;> simp [hlk, hnm, hfv, ih, mappedWrites]
      · by_cases hnm : cm.2 = nm
        · have hh : headerSet h nm (formatHeaderValue v) nm
              = some (formatHeaderValue v) := by
            simp [headerSet]
          simp [hlk, hnm, hfv, ih, hh, mappedWrites]
        · have hh : headerSet h cm.2 (formatHeaderValue v) nm = h nm := by
            simp only [headerSet]
            exact if_neg (fun he => hnm he.symm)
          simp [hlk, hnm, hfv, ih, hh, mappedWrites]

theorem foldl_some_init_irrelevant {α : Type} (l : List α) (a b : Option α)
    (hl : l ≠ []) :
    l.foldl (fun _ v => some v) a = l.foldl (fun _ v => some v) b := by
  cases l with
  | nil => exact absurd rfl hl
  | cons x xs => rfl

theorem serverDefaults_cookieHTTPOnly (s : ServerConfig) :
    (serverDefaults s).cookieHTTPOnly = true := by
  cases hB : s.cookieHTTPOnly <;>
    simp [serverDefaults, apply_ite (fun t : ServerConfig => t.cookieHTTPOnly), hB]

theorem storeGet_delete_self (st : Store) (k : Key) :
    storeGet (storeDelete st k) k = none := by
  induction st with
  | nil => rfl
  | cons kv rest ih =>
    simp only [storeDelete]
    split
    · exact ih
    · simp only [storeGet]
      rw [if_neg (by assumption)]
      exact ih

theorem storeGet_delete_other (st : Store) (k k2 : Key) (hne : k2 ≠ k) :
    storeGet (storeDelete st k) k2 = storeGet st k2 := by
  induction st with
  | nil => rfl
  | cons kv rest ih =>
    obtain ⟨k1, v1⟩ := kv
    simp only [storeDelete]
    by_cases hk : k = k1
    · rw [if_pos hk, ih]
      simp only [storeGet]
      rw [if_neg (by rw [hk] at hne; exact hne)]
    · rw [if_neg hk]
      simp only [storeGet]
      by_cases h2 : k2 = k1 <;> simp [h2, ih]

theorem storeGet_set_other (st : Store) (k k2 : Key) (v : CacheVal)
    (hne : k2 ≠ k) : storeGet (storeSet st k v) k2 = storeGet st k2 := by
  simp only [storeSet, storeGet, if_neg hne]
  exact storeGet_delete_other st k k2 hne

theorem oidcHandleCallback_ok_inv (p : OIDCProviderM)
    (exchange : String → String → Option TokenResp)
    (verify : String → Option (List (String × GoValue)))
    (now : Int) (provUUID csrfUUID : String) (req : CallbackReq)
    (store : Store) (s : Session) (st2 : Store) (tr : List Ev)
    (h : oidcHandleCallback p exchange verify now provUUID csrfUUID req store
          = (.ok s, st2, tr)) :
    req.code ≠ "" ∧ req.state ≠ ""
    ∧ st2 = storeDelete store (.oidcStateK req.state)
    ∧ tr = [.evGet (.oidcStateK req.state), .evDelete (.oidcStateK req.state),
            .evTokenExchange]
    ∧ s.expiresAt = s.tokenExpiry
    ∧ s.id = provUUID ∧ s.providerID = p.id ∧ s.providerType = "oidc" := by
  unfold oidcHandleCallback at h
  by_cases hc : req.code = ""
  · simp only [if_pos hc] at h
    simp at h
  simp only [if_neg hc] at h
  by_cases hs2 : req.state = ""
  · simp only [if_pos hs2] at h
    simp at h
  simp only [if_neg hs2] at h
  cases hget : storeGet store (.oidcStateK req.state) with
  | none =>
    simp only [hget] at h
    simp at h
  | some val =>
    cases val with
    | samlRequestV r =>
      simp only [hget] at h
      simp at h
    | sessionV s3 =>
      simp only [hget] at h
      simp at h
    | csrfV =>
      simp only [hget] at h
      simp at h
    | oidcStateV oidcState =>
      simp only [hget] at h
      by_cases hpid : oidcState.providerID = p.id
      · simp only [if_pos hpid] at h
        cases hex : exchange req.code oidcState.codeVerifier with
        | none =>
          simp only [hex] at h
          simp at h
        | some tok =>
          simp only [hex] at h
          cases hid : tok.idToken with
          | none =>
            simp only [hid] at h
            simp at h
          | some raw =>
            simp only [hid] at h
            cases hver : verify raw with
            | none =>
              simp only [hver] at h
              simp at h
            | some claims =>
              simp only [hver] at h
              simp only [Prod.mk.injEq, Except.ok.injEq] at h
              obtain ⟨hs, hst, htr⟩ := h
              subst hst htr
              refine ⟨hc, hs2, rfl, rfl, ?_, ?_, ?_, ?_⟩ <;>
                simp [← hs]
      · simp only [if_neg hpid] at h
        simp at h

theorem handleOIDCCallback_success_shape
    (providers : List (String × OIDCProviderM))
    (exchange : String → String → Option TokenResp)
    (verify : String → Option (List (String × GoValue)))
    (cfgS : ServerConfig) (now : Int)
    (provUUID csrfUUID sessUUID providerID : String)
    (req : CallbackReq) (store : Store)
    (h : (handleOIDCCallback providers exchange verify cfgS now provUUID
            csrfUUID sessUUID providerID req store).status = 302) :
    ∃ p session0,
      alistGet providers providerID = some p
      ∧ oidcHandleCallback p exchange verify now provUUID csrfUUID req store
          = (.ok session0, storeDelete store (.oidcStateK req.state),
             [.evGet (.oidcStateK req.state), .evDelete (.oidcStateK req.state),
              .evTokenExchange])
      ∧ handleOIDCCallback providers exchange verify cfgS now provUUID csrfUUID
          sessUUID providerID req store
          = { status := 302, location := some "/",
              cookies := [createSessionCookie cfgS sessUUID
                            (session0.expiresAt - now)],
              store := storeSet (storeDelete store (.oidcStateK req.state))
                         (.sessionK sessUUID)
                         (.sessionV { session0 with id := sessUUID }),
              trace := [.evGet (.oidcStateK req.state),
                        .evDelete (.oidcStateK req.state), .evTokenExchange,
                        .evSet (.sessionK sessUUID) (session0.expiresAt - now),
                        .evSetCookie (createSessionCookie cfgS sessUUID
                                        (session0.expiresAt - now)),
                        .evRedirect "/"] }
      ∧ req.state ≠ "" ∧ req.code ≠ "" := by
  unfold handleOIDCCallback at h ⊢
  split at h
  · simp at h
  · rename_i p hp
    split at h
    · simp at h
    · rename_i session0 store1 t1 heq
      obtain ⟨hcode, hstate, hst, htr, _⟩ :=
        oidcHandleCallback_ok_inv p exchange verify now provUUID csrfUUID req
          store session0 store1 t1 heq
      subst hst htr
      refine ⟨p, session0, hp, heq, ?_, hstate, hcode⟩
      simp

theorem oidcHandleCallback_trace_no_cookie (p : OIDCProviderM)
    (exchange : String → String → Option TokenResp)
    (verify : String → Option (List (String × GoValue)))
    (now : Int) (provUUID csrfUUID : String) (req : CallbackReq)
    (store : Store) (c : Cookie) :
    Ev.evSetCookie c
      ∉ (oidcHandleCallback p exchange verify now provUUID csrfUUID req
          store).2.2 := by
  unfold oidcHandleCallback
  repeat' split
  all_goals simp

theorem oidcRefreshSession_ok_shape
    (verify : String → Option (List (String × GoValue)))
    (tokenResult : Option TokenResp) (s s2 : Session)
    (h : oidcRefreshSession verify tokenResult s = .ok s2) :
    ∃ (newToken : TokenResp) (s1 : Session), tokenResult = some newToken
      ∧ s1.refreshToken = s.refreshToken
      ∧ s2 = { s1 with
               accessToken := newToken.accessToken,
               refreshToken :=
                 if newToken.refreshToken ≠ "" then newToken.refreshToken
                 else s1.refreshToken,
               tokenExpiry := newToken.expiry,
               expiresAt := newToken.expiry } := by
  unfold oidcRefreshSession at h
  by_cases hrt : s.refreshToken = ""
  · simp only [if_pos hrt] at h
    simp at h
  simp only [if_neg hrt] at h
  cases htok : tokenResult with
  | none =>
    simp only [htok] at h
    simp at h
  | some newToken =>
    simp only [htok] at h
    cases hid : newToken.idToken with
    | none =>
      simp only [hid] at h
      simp only [Except.ok.injEq] at h
      exact ⟨newToken, s, rfl, rfl, h.symm⟩
    | some raw =>
      simp only [hid] at h
      cases hver : verify raw with
      | none =>
        simp only [hver] at h
        simp at h
      | some claims =>
        simp only [hver] at h
        simp only [Except.ok.injEq] at h
        exact ⟨newToken, { s with userInfo := claims, idToken := raw }, rfl,
               rfl, h.symm⟩

/-! ## C1 and C10 theorems. -/

/-- C1 counterexample: with mapping `email → X-User-Email` and a session
whose `user_info` lacks the `email` claim, a spoofed inbound
`X-User-Email` header survives `InjectHeaders` unchanged, so the outbound
value is not determined solely by the session and the mapping. -/
theorem injectHeaders_spoof_survives :
    injectHeaders [("email", "X-User-Email")]
        { id := "sid", providerID := "azure", providerType := "oidc",
          userInfo := [], createdAt := 0, expiresAt := 3600,
          accessToken := "", refreshToken := "", idToken := "",
          tokenExpiry := 3600, assertion := "", csrfToken := "" }
        (fun nm => if nm = "X-User-Email" then some "evil@x.com" else none)
        "X-User-Email" = some "evil@x.com"
      ∧ injectHeaders [("email", "X-User-Email")]
        { id := "sid", providerID := "azure", providerType := "oidc",
          userInfo := [], createdAt := 0, expiresAt := 3600,
          accessToken := "", refreshToken := "", idToken := "",
          tokenExpiry := 3600, assertion := "", csrfToken := "" }
        (fun _ => none) "X-User-Email" = none := by
  constructor <;> rfl

/-- C1 (amended): a mapped outbound header is overwritten with a value
determined solely by the session and the mapping whenever at least one
mapping pair targeting it has its claim present in `user_info` with a
non-empty formatted value; for such header names the result of
`InjectHeaders` is independent of the inbound headers. (Counterexample
`injectHeaders_spoof_survives` shows the restriction is necessary: a
mapped header whose claim is absent, or formats to the empty string,
retains the inbound — possibly spoofed — value.) -/
theorem injectHeaders_determined_by_session
    (mappings : List (String × String)) (s : Session) (h1 h2 : Headers)
    (nm : String) (hw : mappedWrites mappings s.userInfo nm ≠ []) :
    injectHeaders mappings s h1 nm = injectHeaders mappings s h2 nm := by
  unfold injectHeaders
  by_cases e1 : nm = "X-Auth-Session-ID"
  · simp [headerSet, e1]
  · by_cases e2 : nm = "X-Auth-Provider-Type"
    · simp [headerSet, e1, e2]
    · by_cases e3 : nm = "X-Auth-Provider"
      · simp [headerSet, e1, e2, e3]
      · simp only [headerSet, if_neg e1, if_neg e2, if_neg e3]
        rw [injectMapped_apply, injectMapped_apply]
        exact foldl_some_init_irrelevant _ _ _ hw

/-- Witness for `injectHeaders_determined_by_session` at a concrete input:
with the `email` claim present, the spoofed and clean inbound header sets
yield the same outbound `X-User-Email`. -/
theorem injectHeaders_determined_by_session_witness :
    injectHeaders [("email", "X-User-Email")]
        { id := "sid", providerID := "azure", providerType := "oidc",
          userInfo := [("email", GoValue.vString "alice@x.com")],
          createdAt := 0, expiresAt := 3600, accessToken := "",
          refreshToken := "", idToken := "", tokenExpiry := 3600,
          assertion := "", csrfToken := "" }
        (fun nm => if nm = "X-User-Email" then some "evil@x.com" else none)
        "X-User-Email"
      = injectHeaders [("email", "X-User-Email")]
        { id := "sid", providerID := "azure", providerType := "oidc",
          userInfo := [("email", GoValue.vString "alice@x.com")],
          createdAt := 0, expiresAt := 3600, accessToken := "",
          refreshToken := "", idToken := "", tokenExpiry := 3600,
          assertion := "", csrfToken := "" }
        (fun _ => none) "X-User-Email" :=
  injectHeaders_determined_by_session _ _ _ _ _ (by decide)

/-- C4: OIDC flow state is single-use. If the callback handler succeeds
for a state value (HTTP 302, consuming the stored `oidc:state` entry),
then a second delivery of the same callback — same `code` and `state` —
against the resulting cache takes the invalid/expired-state path: HTTP
401, no cookie, no cache write, cache unchanged, so no second session is
created or stored. -/
theorem oidc_state_single_use
    (providers : List (String × OIDCProviderM))
    (exchange : String → String → Option TokenResp)
    (verify : String → Option (List (String × GoValue)))
    (cfgS : ServerConfig) (now now2 : Int)
    (provUUID csrfUUID sessUUID provUUID2 csrfUUID2 sessUUID2 : String)
    (providerID : String) (req : CallbackReq) (store : Store)
    (h : (handleOIDCCallback providers exchange verify cfgS now provUUID
            csrfUUID sessUUID providerID req store).status = 302) :
    handleOIDCCallback providers exchange verify cfgS now2 provUUID2
        csrfUUID2 sessUUID2 providerID req
        (handleOIDCCallback providers exchange verify cfgS now provUUID
            csrfUUID sessUUID providerID req store).store
      = { status := 401, location := none, cookies := [],
          store := (handleOIDCCallback providers exchange verify cfgS now
                      provUUID csrfUUID sessUUID providerID req store).store,
          trace := [.evGet (.oidcStateK req.state), .evHttpError 401] } := by
  obtain ⟨p, session0, hp, heq, hrun, hstate, hcode⟩ :=
    handleOIDCCallback_success_shape providers exchange verify cfgS now
      provUUID csrfUUID sessUUID providerID req store h
  rw [hrun]
  have hnone : storeGet
      (storeSet (storeDelete store (.oidcStateK req.state))
        (.sessionK sessUUID) (.sessionV { session0 with id := sessUUID }))
      (.oidcStateK req.state) = none := by
    rw [storeGet_set_other _ _ _ _ (by simp), storeGet_delete_self]
  unfold handleOIDCCallback oidcHandleCallback
  simp only [hp, if_neg hcode, if_neg hstate, hnone]
  rfl

/-- Witness for `oidc_state_single_use`: replaying the concrete successful
callback `witRun` yields 401 and leaves the cache unchanged. -/
theorem oidc_state_single_use_witness :
    handleOIDCCallback [("azure", azureP)] witExchange witVerify witCfg 0
        "u2-prov" "u2-csrf" "u2-sess" "azure" witReq witRun.store
      = { status := 401, location := none, cookies := [],
          store := witRun.store,
          trace := [.evGet (.oidcStateK witReq.state), .evHttpError 401] } :=
  oidc_state_single_use [("azure", azureP)] witExchange witVerify witCfg 0 0
    "u-prov" "u-csrf" "u-sess" "u2-prov" "u2-csrf" "u2-sess" "azure" witReq
    witStore (by decide)

/-- C5: in every execution of the OIDC callback handler, the
`oidc:state:<state>` cache entry is read and then deleted strictly before
any session cookie is written: a `SetCookie` at position `i` of the
operation trace is preceded by the `Get` and the `Delete` of that entry. -/
theorem oidc_state_delete_precedes_cookie
    (providers : List (String × OIDCProviderM))
    (exchange : String → String → Option TokenResp)
    (verify : String → Option (List (String × GoValue)))
    (cfgS : ServerConfig) (now : Int)
    (provUUID csrfUUID sessUUID providerID : String)
    (req : CallbackReq) (store : Store) (tr : List Ev) (i : Nat) (c : Cookie)
    (htr : (handleOIDCCallback providers exchange verify cfgS now provUUID
             csrfUUID sessUUID providerID req store).trace = tr)
    (h : tr.get? i = some (.evSetCookie c)) :
    ∃ jR jD, jR < jD ∧ jD < i
      ∧ tr.get? jR = some (.evGet (.oidcStateK req.state))
      ∧ tr.get? jD = some (.evDelete (.oidcStateK req.state)) := by
  unfold handleOIDCCallback at htr
  split at htr
  · subst htr
    exfalso
    rcases i with _ | i <;> simp at h
  · rename_i p hp
    split at htr
    · rename_i e store1 t1 heq
      subst htr
      exfalso
      have h2 : (t1 ++ [Ev.evHttpError 401]).get? i
          = some (Ev.evSetCookie c) := h
      have hmem : Ev.evSetCookie c ∈ t1 ++ [Ev.evHttpError 401] :=
        List.get?_mem h2
      rcases List.mem_append.mp hmem with hm | hm
      · have ht1 : Ev.evSetCookie c
            ∈ (oidcHandleCallback p exchange verify now provUUID csrfUUID
                req store).2.2 := by
          rw [heq]; exact hm
        exact oidcHandleCallback_trace_no_cookie p exchange verify now
          provUUID csrfUUID req store c ht1
      · simp at hm
    · rename_i session0 store1 t1 heq
      obtain ⟨hcode, hstate, hst, htrace, _⟩ :=
        oidcHandleCallback_ok_inv p exchange verify now provUUID csrfUUID req
          store session0 store1 t1 heq
      subst hst htrace
      subst htr
      simp only [List.cons_append, List.nil_append] at h ⊢
      rcases i with _ | _ | _ | _ | _ | _ | i <;> simp at h
      exact ⟨0, 1, by omega, by omega, rfl, rfl⟩

/-- Witness for `oidc_state_delete_precedes_cookie` at the concrete
successful run `witRun`, whose trace has the session cookie at index 4. -/
theorem oidc_state_delete_precedes_cookie_witness :
    ∃ jR jD, jR < jD ∧ jD < 4
      ∧ (witRun.trace).get? jR = some (.evGet (.oidcStateK witReq.state))
      ∧ (witRun.trace).get? jD = some (.evDelete (.oidcStateK witReq.state)) :=
  oidc_state_delete_precedes_cookie [("azure", azureP)] witExchange witVerify
    witCfg 0 "u-prov" "u-csrf" "u-sess" "azure" witReq witStore witRun.trace 4
    (createSessionCookie witCfg "u-sess" 3600) rfl (by decide)

/-- C7: for every OIDC session refresh that succeeds on a token response
`newToken`: `access_token` and `token_expiry` are replaced by the response
values, and the `refresh_token` is replaced exactly when the response
carries a non-empty one, otherwise the old one is retained unchanged. -/
theorem oidc_refresh_token_rotation
    (verify : String → Option (List (String × GoValue)))
    (tokenResult : Option TokenResp) (newToken : TokenResp) (s s2 : Session)
    (htok : tokenResult = some newToken)
    (h : oidcRefreshSession verify tokenResult s = .ok s2) :
    s2.accessToken = newToken.accessToken
    ∧ s2.tokenExpiry = newToken.expiry
    ∧ (newToken.refreshToken ≠ "" → s2.refreshToken = newToken.refreshToken)
    ∧ (newToken.refreshToken = "" → s2.refreshToken = s.refreshToken) := by
  obtain ⟨newToken2, s1, htok2, hrt, hs2⟩ :=
    oidcRefreshSession_ok_shape verify tokenResult s s2 h
  rw [htok] at htok2
  have hnt : newToken = newToken2 := by
    injection htok2
  subst hnt
  subst hs2
  refine ⟨rfl, rfl, ?_, ?_⟩
  · intro hne
    simp [if_pos hne]
  · intro hemp
    simp [hemp, hrt]

/-- Witness for `oidc_refresh_token_rotation`: refreshing `witSession`
with `witTok2` (which carries no new refresh token) yields
`witRefreshed`, retaining the old refresh token. -/
theorem oidc_refresh_token_rotation_witness :
    witRefreshed.accessToken = witTok2.accessToken
    ∧ witRefreshed.tokenExpiry = witTok2.expiry
    ∧ (witTok2.refreshToken ≠ "" →
        witRefreshed.refreshToken = witTok2.refreshToken)
    ∧ (witTok2.refreshToken = "" →
        witRefreshed.refreshToken = witSession.refreshToken) :=
  oidc_refresh_token_rotation witVerify (some witTok2) witTok2 witSession
    witRefreshed rfl rfl

/-- C9: every session the OIDC provider produces or updates has
`expires_at` exactly equal to `token_expiry`: both `HandleCallback` and
`RefreshSession` assign the same token-expiry instant to both fields, so
an OIDC session whose session-level deadline exceeds its token expiry is
never produced by this provider. -/
theorem oidc_expiresAt_eq_tokenExpiry
    (p : OIDCProviderM) (exchange : String → String → Option TokenResp)
    (verify verify2 : String → Option (List (String × GoValue)))
    (now : Int) (provUUID csrfUUID : String) (req : CallbackReq)
    (store : Store) (s : Session) (st2 : Store) (tr : List Ev)
    (tokenResult : Option TokenResp) (sess s2 : Session) :
    (oidcHandleCallback p exchange verify now provUUID csrfUUID req store
        = (.ok s, st2, tr) → s.expiresAt = s.tokenExpiry)
    ∧ (oidcRefreshSession verify2 tokenResult sess = .ok s2 →
        s2.expiresAt = s2.tokenExpiry) := by
  constructor
  · intro h
    exact (oidcHandleCallback_ok_inv p exchange verify now provUUID csrfUUID
      req store s st2 tr h).2.2.2.2.1
  · intro h
    obtain ⟨newToken, s1, -, -, hs2⟩ :=
      oidcRefreshSession_ok_shape verify2 tokenResult sess s2 h
    rw [hs2]

/-- Witness for `oidc_expiresAt_eq_tokenExpiry` at the concrete callback
and refresh runs. -/
theorem oidc_expiresAt_eq_tokenExpiry_witness :
    witSession.expiresAt = witSession.tokenExpiry
    ∧ witRefreshed.expiresAt = witRefreshed.tokenExpiry :=
  ⟨(oidc_expiresAt_eq_tokenExpiry azureP witExchange witVerify witVerify 0
      "u-prov" "u-csrf" witReq witStore witSession
      (storeDelete witStore (.oidcStateK "S1"))
      [.evGet (.oidcStateK "S1"), .evDelete (.oidcStateK "S1"),
       .evTokenExchange] (some witTok2) witSession witRefreshed).1 rfl,
   (oidc_expiresAt_eq_tokenExpiry azureP witExchange witVerify witVerify 0
      "u-prov" "u-csrf" witReq witStore witSession
      (storeDelete witStore (.oidcStateK "S1"))
      [.evGet (.oidcStateK "S1"), .evDelete (.oidcStateK "S1"),
       .evTokenExchange] (some witTok2) witSession witRefreshed).2 rfl⟩

/-- C3 counterexample: a stored OIDC session that is hard-expired
(`expires_at` = 400 < now = 500) does NOT make the middleware redirect
without a refresh attempt. Because `token_expiry − now < 5 minutes` also
holds, `RefreshSession` IS called — and since it succeeds here, the
request even proceeds downstream instead of redirecting. -/
theorem hard_expiry_still_refreshes :
    Ev.evRefreshCall ∈ (requireAuth [("azure", witProvRT)] 500 (some "sid1")
        [(.sessionK "sid1", .sessionV witExpired)]).trace
    ∧ (requireAuth [("azure", witProvRT)] 500 (some "sid1")
        [(.sessionK "sid1", .sessionV witExpired)]).redirected = false := by
  constructor
  · decide
  · decide

/-- C3 (amended): whenever the middleware finds a stored session that
resolves to a registered provider, it attempts a refresh exactly when
validation fails AND the stored kind is oidc AND `token_expiry` is less
than 5 minutes from now — including the hard-expired case. A hard-expired
session is redirected without a refresh attempt only when additionally the
kind is not oidc or `token_expiry` is at least 5 minutes away. -/
theorem refresh_attempt_characterization
    (providers : List (String × ProviderRT)) (now : Int) (cv : String)
    (store : Store) (session : Session) (provider : ProviderRT)
    (hsess : storeGet store (.sessionK cv) = some (.sessionV session))
    (hprov : alistGet providers session.providerID = some provider) :
    (Ev.evRefreshCall ∈ (requireAuth providers now (some cv) store).trace
      ↔ (validateSession provider.id now session ≠ .ok ()
         ∧ session.providerType = "oidc"
         ∧ session.tokenExpiry - now < 300))
    ∧ ((session.expiresAt < now
        ∧ (session.providerType ≠ "oidc" ∨ 300 ≤ session.tokenExpiry - now)) →
       (requireAuth providers now (some cv) store).redirected = true
       ∧ Ev.evRefreshCall ∉ (requireAuth providers now (some cv) store).trace) := by
  unfold requireAuth
  simp only [hsess, hprov]
  cases hval : validateSession provider.id now session with
  | ok u =>
    cases u
    constructor
    · simp [hval]
    · rintro ⟨hexp, -⟩
      exfalso
      unfold validateSession at hval
      by_cases hpid : session.providerID = provider.id
      · rw [if_pos hpid, if_pos hexp] at hval
        exact Except.noConfusion hval
      · rw [if_neg hpid] at hval
        exact Except.noConfusion hval
  | error e =>
    by_cases hcond : session.providerType = "oidc"
        ∧ session.tokenExpiry - now < 300
    · constructor
      · constructor
        · intro _
          exact ⟨by simp [hval], hcond.1, hcond.2⟩
        · intro _
          simp only [if_pos hcond]
          cases href : provider.refreshFn session <;> simp
      · rintro ⟨hexp, hd | hd⟩
        · exact absurd hcond.1 hd
        · exact absurd hcond.2 (by omega)
    · constructor
      · simp only [if_neg hcond]
        constructor
        · intro hmem
          simp at hmem
        · rintro ⟨-, h1, h2⟩
          exact absurd ⟨h1, h2⟩ hcond
      · intro _
        simp [if_neg hcond]

/-- Witness for `refresh_attempt_characterization` at the concrete
hard-expired session, where validation fails and the refresh window
applies. -/
theorem refresh_attempt_characterization_witness :
    (Ev.evRefreshCall ∈ (requireAuth [("azure", witProvRT)] 500 (some "sid1")
        [(.sessionK "sid1", .sessionV witExpired)]).trace
      ↔ (validateSession witProvRT.id 500 witExpired ≠ .ok ()
         ∧ witExpired.providerType = "oidc"
         ∧ witExpired.tokenExpiry - 500 < 300))
    ∧ ((witExpired.expiresAt < 500
        ∧ (witExpired.providerType ≠ "oidc"
           ∨ 300 ≤ witExpired.tokenExpiry - 500)) →
       (requireAuth [("azure", witProvRT)] 500 (some "sid1")
          [(.sessionK "sid1", .sessionV witExpired)]).redirected = true
       ∧ Ev.evRefreshCall ∉ (requireAuth [("azure", witProvRT)] 500
          (some "sid1")
          [(.sessionK "sid1", .sessionV witExpired)]).trace) :=
  refresh_attempt_characterization [("azure", witProvRT)] 500 "sid1"
    [(.sessionK "sid1", .sessionV witExpired)] witExpired witProvRT rfl rfl

/-- C2: the claim fails on the code. `setupRoutes` registers
`/auth/select` directly on the mux (`selectRoute`), not wrapped in the
CSRF middleware, and `handlePost` performs no CSRF check of its own: a
POST carrying `provider=azure` and no `csrf_token`, against an empty
store (so no token could possibly validate), is not rejected with 403 —
it initiates the flow, writing the `oidc:state:S1` entry and answering
302. Wrapping the same handler in `ValidateCSRF`, as the spec prescribes
(and as the logout route is wired), would instead return 403 with no
cache write. -/
theorem select_post_without_csrf_initiates_flow :
    (selectRoute "https://sso" [("azure", .oidcProv azureP)] (some true)
        "u-csrf" "S1" "ver" "chal" 0
        { method := "POST", form := [("provider", "azure")], headers := [] }
        []).status = 302
    ∧ Ev.evSet (.oidcStateK "S1") 300
        ∈ (selectRoute "https://sso" [("azure", .oidcProv azureP)] (some true)
            "u-csrf" "S1" "ver" "chal" 0
            { method := "POST", form := [("provider", "azure")],
              headers := [] } []).trace
    ∧ validateCSRF
        (selectServeHTTP "https://sso" [("azure", .oidcProv azureP)]
          (some true) "u-csrf" "S1" "ver" "chal" 0)
        { method := "POST", form := [("provider", "azure")], headers := [] }
        []
      = { status := 403, location := none, cookies := [], store := [],
          trace := [.evHttpError 403] } := by
  refine ⟨?_, ?_, ?_⟩ <;> decide

theorem storeGet_set_self (st : Store) (k : Key) (v : CacheVal) :
    storeGet (storeSet st k v) k = some v := by
  simp [storeSet, storeGet]

/-- C6 counterexample: with `session_ttl` at its 24-hour default
(86400 s), the concrete successful OIDC callback `witRun` — whose token
expires 3600 s after `now` — emits a session cookie with `Max-Age` 3600,
not `session_ttl`. -/
theorem session_cookie_max_age_not_sessionTTL :
    witCfg.sessionTTL = 86400
    ∧ witRun.status = 302
    ∧ witRun.cookies = [createSessionCookie witCfg "u-sess" 3600]
    ∧ (createSessionCookie witCfg "u-sess" 3600).maxAge = 3600
    ∧ (createSessionCookie witCfg "u-sess" 3600).maxAge ≠ witCfg.sessionTTL := by
  refine ⟨rfl, ?_, ?_, rfl, by decide⟩ <;> decide

/-- C6 (amended): for every successful OIDC or SAML callback, the emitted
session cookie's `Max-Age` equals `expires_at − now` of the session it
stores — the duration also used as the cache TTL of the session entry —
rather than the configured `session_ttl`, which the callback path never
reads. -/
theorem session_cookie_max_age_tracks_expiry
    (providers : List (String × OIDCProviderM))
    (exchange : String → String → Option TokenResp)
    (verify : String → Option (List (String × GoValue)))
    (cfgS : ServerConfig) (now : Int)
    (provUUID csrfUUID sessUUID providerID : String)
    (req : CallbackReq) (store : Store)
    (sproviders : List (String × SAMLProviderM)) (parse : Option Assertion)
    (cfgS2 : ServerConfig) (now2 : Int)
    (provUUID2 csrfUUID2 sessUUID2 providerID2 : String)
    (samlResponse relayState : String) (store2 : Store) :
    ((handleOIDCCallback providers exchange verify cfgS now provUUID
        csrfUUID sessUUID providerID req store).status = 302 →
      ∃ s : Session,
        storeGet (handleOIDCCallback providers exchange verify cfgS now
            provUUID csrfUUID sessUUID providerID req store).store
            (.sessionK sessUUID) = some (.sessionV s)
        ∧ (handleOIDCCallback providers exchange verify cfgS now provUUID
            csrfUUID sessUUID providerID req store).cookies
          = [createSessionCookie cfgS sessUUID (s.expiresAt - now)])
    ∧ ((handleSAMLCallback sproviders parse cfgS2 now2 provUUID2 csrfUUID2
        sessUUID2 providerID2 samlResponse relayState store2).status = 302 →
      ∃ s : Session,
        storeGet (handleSAMLCallback sproviders parse cfgS2 now2 provUUID2
            csrfUUID2 sessUUID2 providerID2 samlResponse relayState
            store2).store (.sessionK sessUUID2) = some (.sessionV s)
        ∧ (handleSAMLCallback sproviders parse cfgS2 now2 provUUID2
            csrfUUID2 sessUUID2 providerID2 samlResponse relayState
            store2).cookies
          = [createSessionCookie cfgS2 sessUUID2 (s.expiresAt - now2)]) := by
  constructor
  · intro h
    obtain ⟨p, session0, hp, heq, hrun, -, -⟩ :=
      handleOIDCCallback_success_shape providers exchange verify cfgS now
        provUUID csrfUUID sessUUID providerID req store h
    rw [hrun]
    exact ⟨{ session0 with id := sessUUID }, by simp [storeGet_set_self],
           by simp⟩
  · intro h
    unfold handleSAMLCallback at h ⊢
    split at h
    · simp at h
    · rename_i p hp
      split at h
      · simp at h
      · rename_i session0 heq
        exact ⟨{ session0 with id := sessUUID2 },
               by simp [storeGet_set_self], by simp⟩

/-- Witness for `session_cookie_max_age_tracks_expiry` at the concrete
OIDC run `witRun` (token expiry 3600) and SAML run `witSAMLRun`
(`NotOnOrAfter` 3600). -/
theorem session_cookie_max_age_tracks_expiry_witness :
    (∃ s : Session,
        storeGet witRun.store (.sessionK "u-sess") = some (.sessionV s)
        ∧ witRun.cookies = [createSessionCookie witCfg "u-sess"
                              (s.expiresAt - 0)])
    ∧ (∃ s : Session,
        storeGet witSAMLRun.store (.sessionK "u-sess2") = some (.sessionV s)
        ∧ witSAMLRun.cookies = [createSessionCookie witCfg "u-sess2"
                                  (s.expiresAt - 0)]) :=
  ⟨(session_cookie_max_age_tracks_expiry [("azure", azureP)] witExchange
      witVerify witCfg 0 "u-prov" "u-csrf" "u-sess" "azure" witReq witStore
      [("okta", oktaP)] (some witAssert) witCfg 0 "u-prov" "u-csrf" "u-sess2"
      "okta" "resp" "" []).1 (by decide),
   (session_cookie_max_age_tracks_expiry [("azure", azureP)] witExchange
      witVerify witCfg 0 "u-prov" "u-csrf" "u-sess" "azure" witReq witStore
      [("okta", oktaP)] (some witAssert) witCfg 0 "u-prov" "u-csrf" "u-sess2"
      "okta" "resp" "" []).2 (by decide)⟩

/-- C8: every successful SAML callback produces a session with
`provider_id` equal to the provider's id, kind `saml`, `user_info` equal
to the extracted claims, `created_at = now`, and `expires_at` equal to the
assertion's `Conditions.NotOnOrAfter` when present, else `now + 24h`. -/
theorem saml_callback_session_fields
    (p : SAMLProviderM) (parse : Option Assertion) (a : Assertion)
    (now : Int) (provUUID csrfUUID samlResponse : String)
    (hp : parse = some a) (hr : samlResponse ≠ "") :
    ∃ s, samlHandleCallback p parse now provUUID csrfUUID samlResponse
          = .ok s
      ∧ s.providerID = p.id ∧ s.providerType = "saml"
      ∧ s.userInfo = extractSAMLClaims a ∧ s.createdAt = now
      ∧ s.expiresAt = (match a.notOnOrAfter with
                       | some t => t
                       | none => now + 86400) := by
  subst hp
  exact ⟨{ id := provUUID, providerID := p.id, providerType := "saml",
           userInfo := extractSAMLClaims a, createdAt := now,
           expiresAt := (match a.notOnOrAfter with
                         | some t => t
                         | none => now + 86400),
           accessToken := "", refreshToken := "", idToken := "",
           tokenExpiry := 0, assertion := a.xmlData, csrfToken := csrfUUID },
         by simp [samlHandleCallback, hr], rfl, rfl, rfl, rfl, rfl⟩

/-- Witness for `saml_callback_session_fields` at the concrete assertion
`witAssert` (`NotOnOrAfter` 3600). -/
theorem saml_callback_session_fields_witness :
    ∃ s, samlHandleCallback oktaP (some witAssert) 0 "u-prov" "u-csrf" "resp"
          = .ok s
      ∧ s.providerID = oktaP.id ∧ s.providerType = "saml"
      ∧ s.userInfo = extractSAMLClaims witAssert ∧ s.createdAt = 0
      ∧ s.expiresAt = (match witAssert.notOnOrAfter with
                       | some t => t
                       | none => 0 + 86400) :=
  saml_callback_session_fields oktaP (some witAssert) witAssert 0 "u-prov"
    "u-csrf" "resp" rfl (by decide)

/-- C10: `setDefaults` forces `Server.CookieHTTPOnly` to `true` whenever it
is `false` (so a `cookie_http_only: false` setting is silently overridden),
and consequently every cookie built from the defaulted configuration by
`CreateSessionCookie` carries the `HttpOnly` flag. -/
theorem cookieHTTPOnly_forced_true (c : Config) (sessionID : String)
    (maxAge : Int) :
    (setDefaults c).server.cookieHTTPOnly = true
      ∧ (createSessionCookie (setDefaults c).server sessionID maxAge).httpOnly
          = true := by
  refine ⟨serverDefaults_cookieHTTPOnly c.server, ?_⟩
  simp [createSessionCookie, setDefaults, serverDefaults_cookieHTTPOnly]

end SSO
